import Mathlib

/-!
Verification of the news-correlation and hotspot-scoring core of the
worldmonitor dashboard.

The definitions below are a shallow embedding of the TypeScript sources:

* the correlation / signal detector (`analyzeCorrelations` and its helper
  detectors) from the correlation service module;
* the source-type table (`getSourceType`) from `src/config/feeds.ts`;
* the hotspot activity scorer (`updateHotspotActivity`, `getRelatedNews`)
  from `src/components/Map.ts`, together with the hotspot constants from
  `src/config/geo.ts` that the concrete scenarios use.

Modelling conventions:

* JavaScript numbers are modelled as `ℚ` (prices, scores, confidences) or
  `ℤ` (millisecond timestamps); counts are `ℕ`.
* JavaScript strings are Lean `String`s; `title.toLowerCase()`,
  `title.includes(kw)` and `title.slice(0, n)` are modelled by `lowerStr`,
  `strIncludes` and `strSlice` (defined structurally so that they reduce).
* A JavaScript `Map` built and iterated in insertion order is modelled as an
  association list with `alGet` / `alSet` / `alOfList` reproducing
  `Map.get` / `Map.set` / `new Map(pairs)` (including last-wins on duplicate
  keys and in-place update keeping insertion order).
* The detector's module-level mutable state (`previousSnapshot`,
  `recentSignalKeys`) is threaded explicitly as a `DetectorState`;
  `analyzeCorrelations` returns the emitted signals together with the new
  state.  Entries of `recentSignalKeys` self-delete after 30 minutes via a
  timer; within a 30-minute window no entry expires, so consecutive calls
  within that window are modelled by threading the state unchanged.
* `generateSignalId` (wall-clock + `Math.random`) and the signal `timestamp`
  are nondeterministic display-only fields and are omitted from the signal
  record; the `data` payload is flattened into the record.
-/

namespace WorldMonitor

/-! ## String primitives -/

/-- `s.toLowerCase()`. -/
def lowerStr (s : String) : String := String.mk (s.data.map Char.toLower)

/-- Does `needle` occur at the head of `haystack`? -/
def startsHere : List Char → List Char → Bool
  | [], _ => true
  | _ :: _, [] => false
  | a :: as, b :: bs => a == b && startsHere as bs

/-- Does `needle` occur anywhere in `haystack`? -/
def subOf (needle : List Char) : List Char → Bool
  | [] => startsHere needle []
  | b :: bs => startsHere needle (b :: bs) || subOf needle bs

/-- `haystack.includes(needle)`. -/
def strIncludes (haystack needle : String) : Bool := subOf needle.data haystack.data

/-- `s.slice(0, n)`. -/
def strSlice (s : String) (n : Nat) : String := String.mk (s.data.take n)

/-- `[...new Set(xs)]`: keep the first occurrence of each element,
in order of first insertion. -/
def dedupFirstAux [DecidableEq α] : List α → List α → List α
  | [], _ => []
  | x :: xs, seen => if x ∈ seen then dedupFirstAux xs seen else x :: dedupFirstAux xs (x :: seen)

/-- `[...new Set(xs)]`. -/
def dedupFirst [DecidableEq α] (l : List α) : List α := dedupFirstAux l []

/-! ## Association lists modelling JavaScript `Map` -/

/-- `map.get(k)` (first entry with key `k`; keys are unique by construction). -/
def alGet (m : List (String × ℚ)) (k : String) : Option ℚ :=
  (m.find? (fun p => p.1 == k)).map (fun p => p.2)

/-- `map.set(k, v)`: update in place if present (keeping insertion order),
otherwise append. -/
def alSet (m : List (String × ℚ)) (k : String) (v : ℚ) : List (String × ℚ) :=
  match m with
  | [] => [(k, v)]
  | p :: rest => if p.1 == k then (k, v) :: rest else p :: alSet rest k v

/-- `new Map(pairs)`: later pairs overwrite earlier ones. -/
def alOfList (l : List (String × ℚ)) : List (String × ℚ) :=
  l.foldl (fun m p => alSet m p.1 p.2) []

/-! ## Number formatting (JavaScript `toFixed`) -/

/-- `x.toFixed(1)`: round half away from zero to one decimal digit. -/
def toFixed1 (q : ℚ) : String :=
  let n : ℤ := ⌊|q| * 10 + 1/2⌋
  (if q < 0 then "-" else "") ++ toString (n / 10) ++ "." ++ toString (n % 10)

/-- `x.toFixed(2)`: round half away from zero to two decimal digits. -/
def toFixed2 (q : ℚ) : String :=
  let n : ℤ := ⌊|q| * 100 + 1/2⌋
  let r := n % 100
  (if q < 0 then "-" else "") ++ toString (n / 100) ++ "." ++
    (if r < 10 then "0" else "") ++ toString r

/-! ## Data model (src/types/index.ts, restricted to the fields the
correlation and hotspot code reads) -/

/-- `NewsItem` (`link`, `monitorColor`, `tier` are never read by the code
under verification and are omitted). `pubDate` is a `Date`, modelled as
milliseconds since the epoch. -/
structure NewsItem where
  source : String
  title : String
  pubDate : ℤ
  isAlert : Bool
deriving DecidableEq

/-- `VelocityMetrics`, restricted to `sourcesPerHour`, the only field the
correlation detector reads. -/
structure VelocityMetrics where
  sourcesPerHour : ℚ
deriving DecidableEq

/-- `ClusteredEvent`, restricted to the fields the detector reads.
`sourceCount` is a JavaScript number and participates in rational topic
scores, hence `ℚ`. -/
structure ClusteredEvent where
  id : String
  primaryTitle : String
  sourceCount : ℚ
  allItems : List NewsItem
  velocity : Option VelocityMetrics := none
deriving DecidableEq

/-- `PredictionMarket` (`volume` is never read here). -/
structure PredictionMarket where
  title : String
  yesPrice : ℚ
deriving DecidableEq

/-- `MarketData` (`display` and `price` are never read here); `change` is
`number | null`. -/
structure MarketData where
  symbol : String
  name : String
  change : Option ℚ
deriving DecidableEq

/-! ## Source types (src/config/feeds.ts) -/

inductive SourceType where
  | wire | gov | intel | mainstream | market | tech | other
deriving DecidableEq

/-- The string each `SourceType` denotes in the TypeScript union. -/
def sourceTypeName : SourceType → String
  | .wire => "wire"
  | .gov => "gov"
  | .intel => "intel"
  | .mainstream => "mainstream"
  | .market => "market"
  | .tech => "tech"
  | .other => "other"

/-- The `SOURCE_TYPES` record. -/
def SOURCE_TYPES : List (String × SourceType) := [
  ("Reuters", .wire), ("Reuters World", .wire), ("Reuters Business", .wire),
  ("AP News", .wire), ("AFP", .wire), ("Bloomberg", .wire),
  ("White House", .gov), ("State Dept", .gov), ("Pentagon", .gov),
  ("Treasury", .gov), ("DOJ", .gov), ("DHS", .gov), ("CDC", .gov),
  ("FEMA", .gov), ("Federal Reserve", .gov), ("SEC", .gov),
  ("Defense One", .intel), ("Breaking Defense", .intel), ("The War Zone", .intel),
  ("Defense News", .intel), ("Bellingcat", .intel), ("Krebs Security", .intel),
  ("Foreign Policy", .intel), ("The Diplomat", .intel),
  ("BBC World", .mainstream), ("BBC Middle East", .mainstream),
  ("Guardian World", .mainstream), ("Guardian ME", .mainstream),
  ("NPR News", .mainstream), ("Al Jazeera", .mainstream),
  ("CNN Middle East", .mainstream),
  ("CNBC", .market), ("MarketWatch", .market), ("Yahoo Finance", .market),
  ("Financial Times", .market),
  ("Hacker News", .tech), ("Ars Technica", .tech), ("The Verge", .tech),
  ("MIT Tech Review", .tech), ("TechCrunch Layoffs", .tech),
  ("AI News", .tech), ("Hugging Face", .tech), ("ArXiv AI", .tech),
  ("VentureBeat AI", .tech), ("OpenAI News", .tech)]

/-- `getSourceType(sourceName)`: table lookup defaulting to `other`. -/
def getSourceType (sourceName : String) : SourceType :=
  ((SOURCE_TYPES.find? (fun p => p.1 == sourceName)).map (fun p => p.2)).getD .other

/-! ## Correlation detector (correlation service module) -/

inductive SignalType where
  | prediction_leads_news | news_leads_markets | silent_divergence
  | velocity_spike | convergence | triangulation
deriving DecidableEq

/-- `CorrelationSignal` with the random `id` and wall-clock `timestamp`
omitted and the `data` payload flattened. -/
structure CorrelationSignal where
  type : SignalType
  title : String
  description : String
  confidence : ℚ
  predictionShift : Option ℚ := none
  marketChange : Option ℚ := none
  newsVelocity : Option ℚ := none
  relatedTopics : List String := []
deriving DecidableEq

/-- `StreamSnapshot`. -/
structure StreamSnapshot where
  newsVelocity : List (String × ℚ)
  marketChanges : List (String × ℚ)
  predictionChanges : List (String × ℚ)
  timestamp : ℤ
deriving DecidableEq

def PREDICTION_SHIFT_THRESHOLD : ℚ := 5
def MARKET_MOVE_THRESHOLD : ℚ := 2
def NEWS_VELOCITY_THRESHOLD : ℚ := 3

/-- `generateDedupeKey(type, identifier, value)` builds the string
`type:identifier:rounded` where `rounded = Math.round(value * 10) / 10`.
We model the key as the triple itself (`rounded` kept as the integer
`Math.round(value * 10) = ⌊value * 10 + 1/2⌋`), which has the same
equality as the rendered string. -/
structure DedupeKey where
  type : SignalType
  identifier : String
  rounded : ℤ
deriving DecidableEq

/-- The detector's module-level mutable state: the single previous snapshot
slot and the self-expiring dedupe key set. -/
structure DetectorState where
  previousSnapshot : Option StreamSnapshot
  recentKeys : List DedupeKey
deriving DecidableEq

/-- `isRecentDuplicate(key)`. -/
def isRecentDuplicate (keys : List DedupeKey) (key : DedupeKey) : Bool :=
  decide (key ∈ keys)

/-- `markSignalSeen(key)`; the 30-minute timer deletion is outside the
modelled window. -/
def markSignalSeen (keys : List DedupeKey) (key : DedupeKey) : List DedupeKey :=
  key :: keys

def generateDedupeKey (type : SignalType) (identifier : String) (value : ℚ) : DedupeKey :=
  { type := type, identifier := identifier, rounded := ⌊value * 10 + 1/2⌋ }

/-- The fixed keyword vocabulary of `extractTopics`. -/
def topicKeywords : List String := [
  "iran", "israel", "ukraine", "russia", "china", "taiwan", "oil", "crypto",
  "fed", "interest", "inflation", "recession", "war", "sanctions", "tariff",
  "ai", "tech", "layoff", "trump", "biden", "election"]

/-- `extractTopics(events)`. -/
def extractTopics (events : List ClusteredEvent) : List (String × ℚ) :=
  events.foldl (fun topics event =>
    let title := lowerStr event.primaryTitle
    topicKeywords.foldl (fun topics kw =>
      if strIncludes title kw then
        let velocity := ((event.velocity.map (fun v => v.sourcesPerHour)).getD 0)
        alSet topics kw ((alGet topics kw).getD 0 + velocity + event.sourceCount)
      else topics) topics) []

/-- The hand-authored topic-relation table of `findRelatedTopics`. -/
def topicMappings : List (String × List String) := [
  ("iran", ["iran", "israel", "oil", "sanctions"]),
  ("israel", ["israel", "iran", "war", "gaza"]),
  ("ukraine", ["ukraine", "russia", "war", "nato"]),
  ("russia", ["russia", "ukraine", "sanctions"]),
  ("china", ["china", "taiwan", "tariff", "trade"]),
  ("taiwan", ["taiwan", "china"]),
  ("trump", ["trump", "election", "tariff"]),
  ("fed", ["fed", "interest", "inflation", "recession"]),
  ("bitcoin", ["crypto", "bitcoin"]),
  ("recession", ["recession", "fed", "inflation"])]

/-- `findRelatedTopics(prediction)`. -/
def findRelatedTopics (prediction : String) : List String :=
  let title := lowerStr prediction
  let related := topicMappings.foldl
    (fun acc p => if strIncludes title p.1 then acc ++ p.2 else acc) []
  dedupFirst related

/-- The signal pushed by the prediction-shift detector. -/
def mkPredictionSignal (predTitle : String) (shift newsActivity : ℚ)
    (related : List String) : CorrelationSignal :=
  { type := .prediction_leads_news,
    title := "Prediction Market Shift",
    description := "\"" ++ strSlice predTitle 60 ++ "...\" moved " ++
      (if 0 < shift then "+" else "") ++ toFixed1 shift ++ "% with low news coverage",
    confidence := min 0.9 (0.5 + shift / 20),
    predictionShift := some shift,
    newsVelocity := some newsActivity,
    relatedTopics := related }

/-- The prediction-shift loop of `analyzeCorrelations`. -/
def detectPredictionShifts (newsTopics prevPredictions : List (String × ℚ)) :
    List PredictionMarket → List DedupeKey → List CorrelationSignal × List DedupeKey
  | [], keys => ([], keys)
  | pred :: rest, keys =>
    let key := strSlice pred.title 50
    match alGet prevPredictions key with
    | none => detectPredictionShifts newsTopics prevPredictions rest keys
    | some prev =>
      let shift := |pred.yesPrice - prev|
      if PREDICTION_SHIFT_THRESHOLD ≤ shift then
        let related := findRelatedTopics pred.title
        let newsActivity := related.foldl (fun sum t => sum + (alGet newsTopics t).getD 0) 0
        let dedupeKey := generateDedupeKey .prediction_leads_news key shift
        if newsActivity < NEWS_VELOCITY_THRESHOLD ∧ ¬ (isRecentDuplicate keys dedupeKey = true) then
          let r := detectPredictionShifts newsTopics prevPredictions rest
            (markSignalSeen keys dedupeKey)
          (mkPredictionSignal pred.title shift newsActivity related :: r.1, r.2)
        else detectPredictionShifts newsTopics prevPredictions rest keys
      else detectPredictionShifts newsTopics prevPredictions rest keys

/-- The signal pushed by the velocity-spike detector. -/
def mkVelocitySignal (topic : String) (velocity : ℚ) : CorrelationSignal :=
  { type := .velocity_spike,
    title := "News Velocity Spike",
    description := "\"" ++ topic ++ "\" coverage surging: " ++ toFixed1 velocity ++
      " activity score",
    confidence := min 0.85 (0.4 + velocity / 20),
    newsVelocity := some velocity,
    relatedTopics := [topic] }

/-- The velocity-spike loop: iterates the current topic map in insertion
order against the previous snapshot. -/
def detectVelocitySpikes (prevTopics : List (String × ℚ)) :
    List (String × ℚ) → List DedupeKey → List CorrelationSignal × List DedupeKey
  | [], keys => ([], keys)
  | (topic, velocity) :: rest, keys =>
    let prevVelocity := (alGet prevTopics topic).getD 0
    if NEWS_VELOCITY_THRESHOLD * 2 < velocity ∧ prevVelocity * 2 < velocity then
      let dedupeKey := generateDedupeKey .velocity_spike topic velocity
      if ¬ (isRecentDuplicate keys dedupeKey = true) then
        let r := detectVelocitySpikes prevTopics rest (markSignalSeen keys dedupeKey)
        (mkVelocitySignal topic velocity :: r.1, r.2)
      else detectVelocitySpikes prevTopics rest keys
    else detectVelocitySpikes prevTopics rest keys

/-- The signal pushed by the silent-divergence detector. -/
def mkDivergenceSignal (m : MarketData) (relatedNews : ℚ) : CorrelationSignal :=
  { type := .silent_divergence,
    title := "Unexplained Market Move",
    description := m.name ++ " moved " ++
      (if 0 < m.change.getD 0 then "+" else "") ++ toFixed2 (m.change.getD 0) ++
      "% with minimal news coverage",
    confidence := min 0.8 (0.4 + |m.change.getD 0| / 10),
    marketChange := some (m.change.getD 0),
    newsVelocity := some relatedNews }

/-- The silent-divergence loop of `analyzeCorrelations`. -/
def detectSilentDivergences (newsTopics : List (String × ℚ)) :
    List MarketData → List DedupeKey → List CorrelationSignal × List DedupeKey
  | [], keys => ([], keys)
  | m :: rest, keys =>
    let change := |m.change.getD 0|
    if MARKET_MOVE_THRESHOLD ≤ change then
      let relatedNews := (newsTopics.filter (fun p =>
          strIncludes (lowerStr m.name) p.1 || strIncludes p.1 (lowerStr m.symbol))).foldl
        (fun sum p => sum + p.2) 0
      let dedupeKey := generateDedupeKey .silent_divergence m.symbol change
      if relatedNews < 2 ∧ ¬ (isRecentDuplicate keys dedupeKey = true) then
        let r := detectSilentDivergences newsTopics rest (markSignalSeen keys dedupeKey)
        (mkDivergenceSignal m relatedNews :: r.1, r.2)
      else detectSilentDivergences newsTopics rest keys
    else detectSilentDivergences newsTopics rest keys

/-- 30-minute convergence window in milliseconds. -/
def WINDOW_MS : ℤ := 30 * 60 * 1000

/-- The members of a cluster published within the last 30 minutes. -/
def recentItemsOf (now : ℤ) (e : ClusteredEvent) : List NewsItem :=
  e.allItems.filter (fun item => decide (now - item.pubDate < WINDOW_MS))

/-- The distinct source types among a cluster's recent items,
in first-occurrence order (a JavaScript `Set`). -/
def convSourceTypes (now : ℤ) (e : ClusteredEvent) : List SourceType :=
  dedupFirst ((recentItemsOf now e).map (fun item => getSourceType item.source))

/-- The non-`other` source types used in the convergence signal. -/
def convNonOtherTypes (now : ℤ) (e : ClusteredEvent) : List SourceType :=
  (convSourceTypes now e).filter (fun t => decide (t ≠ SourceType.other))

/-- The signal pushed by the convergence detector. -/
def mkConvergenceSignal (now : ℤ) (e : ClusteredEvent) : CorrelationSignal :=
  { type := .convergence,
    title := "Source Convergence",
    description := "\"" ++ strSlice e.primaryTitle 50 ++ "...\" reported by " ++
      String.intercalate ", " ((convNonOtherTypes now e).map sourceTypeName) ++
      " (" ++ toString (recentItemsOf now e).length ++ " sources in 30m)",
    confidence := min 0.95 (0.6 + ((convSourceTypes now e).length : ℚ) * 0.1),
    newsVelocity := some ((recentItemsOf now e).length : ℚ),
    relatedTopics := (convNonOtherTypes now e).map sourceTypeName }

/-- `detectConvergence(events)`: 3+ recent items across 3+ distinct
non-`other` source types on the same story. -/
def detectConvergence (now : ℤ) :
    List ClusteredEvent → List DedupeKey → List CorrelationSignal × List DedupeKey
  | [], keys => ([], keys)
  | event :: rest, keys =>
    if event.allItems.length < 3 then detectConvergence now rest keys
    else
      if (recentItemsOf now event).length < 3 then detectConvergence now rest keys
      else
        if 3 ≤ (convSourceTypes now event).length then
          let dedupeKey := generateDedupeKey .convergence event.id
            ((convSourceTypes now event).length : ℚ)
          if ¬ (isRecentDuplicate keys dedupeKey = true) ∧
              3 ≤ (convNonOtherTypes now event).length then
            let r := detectConvergence now rest (markSignalSeen keys dedupeKey)
            (mkConvergenceSignal now event :: r.1, r.2)
          else detectConvergence now rest keys
        else detectConvergence now rest keys

/-- The critical source types of the triangulation detector. -/
def CRITICAL_TYPES : List SourceType := [.wire, .gov, .intel]

/-- The distinct critical source types present among all of a cluster's
items, in first-occurrence order. -/
def triTypesPresent (e : ClusteredEvent) : List SourceType :=
  dedupFirst ((e.allItems.map (fun item => getSourceType item.source)).filter
    (fun t => decide (t ∈ CRITICAL_TYPES)))

/-- The signal pushed by the triangulation detector. -/
def mkTriangulationSignal (e : ClusteredEvent) : CorrelationSignal :=
  { type := .triangulation,
    title := "Intel Triangulation",
    description := "Wire + Gov + Intel aligned: \"" ++ strSlice e.primaryTitle 45 ++ "...\"",
    confidence := 0.9,
    newsVelocity := some e.sourceCount,
    relatedTopics := (triTypesPresent e).map sourceTypeName }

/-- `detectTriangulation(events)`: wire + gov + intel aligned on one story. -/
def detectTriangulation :
    List ClusteredEvent → List DedupeKey → List CorrelationSignal × List DedupeKey
  | [], keys => ([], keys)
  | event :: rest, keys =>
    if event.allItems.length < 3 then detectTriangulation rest keys
    else
      if (triTypesPresent event).length = 3 then
        let dedupeKey := generateDedupeKey .triangulation event.id 3
        if ¬ (isRecentDuplicate keys dedupeKey = true) then
          let r := detectTriangulation rest (markSignalSeen keys dedupeKey)
          (mkTriangulationSignal event :: r.1, r.2)
        else detectTriangulation rest keys
      else detectTriangulation rest keys

/-- The `currentSnapshot` built at the top of `analyzeCorrelations`. -/
def mkSnapshot (now : ℤ) (events : List ClusteredEvent)
    (predictions : List PredictionMarket) (markets : List MarketData) : StreamSnapshot :=
  { newsVelocity := extractTopics events,
    marketChanges := alOfList (markets.map (fun m => (m.symbol, m.change.getD 0))),
    predictionChanges := alOfList (predictions.map (fun p => (strSlice p.title 50, p.yesPrice))),
    timestamp := now }

/-- All signal candidates of one (non-cold-start) cycle, in push order,
threading the dedupe key set through the five detectors. -/
def collectCandidates (prev : StreamSnapshot) (keys0 : List DedupeKey) (now : ℤ)
    (events : List ClusteredEvent) (predictions : List PredictionMarket)
    (markets : List MarketData) : List CorrelationSignal × List DedupeKey :=
  let newsTopics := extractTopics events
  let r1 := detectPredictionShifts newsTopics prev.predictionChanges predictions keys0
  let r2 := detectVelocitySpikes prev.newsVelocity newsTopics r1.2
  let r3 := detectSilentDivergences newsTopics markets r2.2
  let r4 := detectConvergence now events r3.2
  let r5 := detectTriangulation events r4.2
  (r1.1 ++ r2.1 ++ r3.1 ++ r4.1 ++ r5.1, r5.2)

/-- `signals.filter((sig, idx) => signals.findIndex(s => s.type === sig.type) === idx)`:
the cross-type de-spam filter. -/
def dedupeByType (signals : List CorrelationSignal) : List CorrelationSignal :=
  (signals.enum.filter (fun p =>
    signals.findIdx (fun s => decide (s.type = p.2.type)) == p.1)).map (fun p => p.2)

/-- `analyzeCorrelations(events, predictions, markets)`, with the module
state passed and returned explicitly and `Date.now()` passed as `now`. -/
def analyzeCorrelations (st : DetectorState) (now : ℤ) (events : List ClusteredEvent)
    (predictions : List PredictionMarket) (markets : List MarketData) :
    List CorrelationSignal × DetectorState :=
  let currentSnapshot := mkSnapshot now events predictions markets
  match st.previousSnapshot with
  | none => ([], { previousSnapshot := some currentSnapshot, recentKeys := st.recentKeys })
  | some prev =>
    let c := collectCandidates prev st.recentKeys now events predictions markets
    ((dedupeByType c.1).filter (fun s => decide ((0.6 : ℚ) ≤ s.confidence)),
      { previousSnapshot := some currentSnapshot, recentKeys := c.2 })

/-! ## Hotspot scorer (src/components/Map.ts) -/

/-- `Hotspot` restricted to the fields the scorer reads (`lat`, `lon`,
`subtext`, `description` omitted).  The optional `agencies` array is
modelled as a list, `[]` standing for `undefined` (both make
`agencies?.some(...)` falsy). -/
structure Hotspot where
  id : String
  name : String
  keywords : List String
  agencies : List String := []
deriving DecidableEq

inductive HotspotLevel where
  | low | elevated | high
deriving DecidableEq

/-- The keywords of `spot` matched by a title
(`hotspot.keywords.filter(kw => titleLower.includes(kw.toLowerCase()))`). -/
def matchedKeywords (spot : Hotspot) (title : String) : List String :=
  spot.keywords.filter (fun kw => strIncludes (lowerStr title) (lowerStr kw))

/-- The high-priority conflict topics of `getRelatedNews`. -/
def conflictTopics : List String :=
  ["gaza", "ukraine", "russia", "israel", "iran", "china", "taiwan", "korea", "syria"]

/-- The per-item map step of `getRelatedNews`: `none` models the `null`
returned for non-matching or cross-topic-suppressed items, otherwise the
item paired with its relevance score (keyword-match count). -/
def relatedScore (spot : Hotspot) (item : NewsItem) : Option (NewsItem × ℕ) :=
  let titleLower := lowerStr item.title
  let matched := spot.keywords.filter (fun kw => strIncludes titleLower (lowerStr kw))
  if matched.length = 0 then none
  else
    let conflictMatches := conflictTopics.filter (fun t =>
      strIncludes titleLower t && ! (spot.keywords.any (fun k => strIncludes (lowerStr k) t)))
    if 0 < conflictMatches.length then
      let strongLocalMatch := matched.any (fun kw =>
        lowerStr kw == lowerStr spot.name ||
          spot.agencies.any (fun a => strIncludes titleLower (lowerStr a)))
      if ! strongLocalMatch then none else some (item, matched.length)
    else some (item, matched.length)

/-- One step of a stable insertion sort for `(a, b) => b.score - a.score`:
insert after all entries with a greater-or-equal score (ties keep the
original order, as JavaScript `Array.prototype.sort` is stable). -/
def insertDesc (x : NewsItem × ℕ) : List (NewsItem × ℕ) → List (NewsItem × ℕ)
  | [] => [x]
  | y :: ys => if y.2 < x.2 then x :: y :: ys else y :: insertDesc x ys

/-- Stable descending sort by score, modelling
`.sort((a, b) => b.score - a.score)`. -/
def sortByScoreDesc (l : List (NewsItem × ℕ)) : List (NewsItem × ℕ) :=
  l.foldl (fun acc x => insertDesc x acc) []

/-- `getRelatedNews(hotspot)` over the stored news corpus: score, apply the
cross-topic suppression, rank by match count descending, return the top 5. -/
def getRelatedNews (spot : Hotspot) (news : List NewsItem) : List NewsItem :=
  ((sortByScoreDesc (news.filterMap (relatedScore spot))).take 5).map (fun p => p.1)

/-- The accumulator of the scoring loop of `updateHotspotActivity`. -/
structure ActivityStats where
  score : ℚ
  hasBreaking : Bool
  matchedCount : ℕ
deriving DecidableEq

/-- One news item's contribution in `updateHotspotActivity`: base score per
match, breaking-news bonus, and the recency bonus bands (the `item.pubDate`
truthiness guard always passes since `pubDate` is a `Date`). -/
def statsStep (spot : Hotspot) (now : ℤ) (st : ActivityStats) (item : NewsItem) : ActivityStats :=
  let matched := matchedKeywords spot item.title
  if 0 < matched.length then
    let score := st.score + (matched.length : ℚ) * 2
    let score := if item.isAlert then score + 5 else score
    let hasBreaking := if item.isAlert then true else st.hasBreaking
    let hoursAgo : ℚ := ((now - item.pubDate : ℤ) : ℚ) / (1000 * 60 * 60)
    let score := if hoursAgo < 1 then score + 3
      else if hoursAgo < 6 then score + 2
      else if hoursAgo < 24 then score + 1
      else score
    { score := score, hasBreaking := hasBreaking, matchedCount := st.matchedCount + 1 }
  else st

/-- The scoring loop of `updateHotspotActivity` for one hotspot. -/
def activityStats (spot : Hotspot) (news : List NewsItem) (now : ℤ) : ActivityStats :=
  news.foldl (statsStep spot now) { score := 0, hasBreaking := false, matchedCount := 0 }

/-- The level/status classification at the end of `updateHotspotActivity`. -/
def classifyHotspot (st : ActivityStats) : HotspotLevel × String :=
  if st.hasBreaking = true ∨ 4 ≤ st.matchedCount ∨ 10 ≤ st.score then
    (.high, if st.hasBreaking then "BREAKING NEWS" else "High activity")
  else if 2 ≤ st.matchedCount ∨ 4 ≤ st.score then (.elevated, "Elevated activity")
  else if 1 ≤ st.matchedCount then (.low, "Recent mentions")
  else (.low, "Monitoring")

/-- `updateHotspotActivity(news)`: the source mutates `spot.level`,
`spot.status` and `spot.hasBreaking` on each hotspot; we return the derived
`(spot, level, status, hasBreaking)` tuples instead. -/
def updateHotspotActivity (hotspots : List Hotspot) (news : List NewsItem) (now : ℤ) :
    List (Hotspot × HotspotLevel × String × Bool) :=
  hotspots.map (fun spot =>
    let st := activityStats spot news now
    let lc := classifyHotspot st
    (spot, lc.1, lc.2, st.hasBreaking))

/-! ## Hotspot constants (src/config/geo.ts) -/

/-- The `dc` entry of `INTEL_HOTSPOTS`. -/
def dcHotspot : Hotspot :=
  { id := "dc", name := "DC",
    keywords := ["pentagon", "white house", "congress", "cia", "nsa", "washington",
      "biden", "trump", "house", "senate", "supreme court", "vance", "elon", "us "],
    agencies := ["Pentagon", "CIA", "NSA", "State Dept"] }

/-- The `telaviv` entry of `INTEL_HOTSPOTS`. -/
def telavivHotspot : Hotspot :=
  { id := "telaviv", name := "Tel Aviv",
    keywords := ["israel", "idf", "mossad", "gaza", "netanyahu", "israeli",
      "hamas", "hezbollah"],
    agencies := ["IDF", "Mossad", "Shin Bet"] }

/-! ## Concrete scenarios -/

/-- The prediction-market title of the end-to-end scenario in the spec. -/
def fedTitle : String := "Will the Fed cut rates in March"

/-- A previous snapshot holding the Fed market at `yesPrice = 0.40`. -/
def c1PrevSnapshot : StreamSnapshot :=
  { newsVelocity := [], marketChanges := [],
    predictionChanges := [(fedTitle, 0.40)], timestamp := 0 }

/-- Severity order on hotspot levels: `low < elevated < high`. -/
def levelRank : HotspotLevel → ℕ
  | .low => 0
  | .elevated => 1
  | .high => 2

/-- The news corpus of the Tel Aviv scenario: five items, four mentioning
Gaza, one of them alert-flagged. -/
def c2News : List NewsItem := [
  { source := "Reuters", title := "Gaza ceasefire collapses overnight",
    pubDate := 7000000, isAlert := false },
  { source := "AP News", title := "Aid convoy reaches Gaza border",
    pubDate := 7000000, isAlert := false },
  { source := "BBC World", title := "Gaza hospital reports power outage",
    pubDate := 7000000, isAlert := false },
  { source := "Al Jazeera", title := "Explosions reported across Gaza tonight",
    pubDate := 7000000, isAlert := true },
  { source := "NPR News", title := "Quiet morning across the region",
    pubDate := 7000000, isAlert := false }]

/-- The news item of the spec's `getRelatedNews` scenario for the `dc`
hotspot: it matches the keyword `pentagon`, mentions the unrelated conflict
topic `gaza`, and contains the listed agency `Pentagon` in its title. -/
def gazaPentagonItem : NewsItem :=
  { source := "Reuters", title := "Gaza ceasefire talks stall as Pentagon briefs allies",
    pubDate := 0, isAlert := false }

/-- A variant of the scenario item whose only local match is the keyword
`white house`, which is not a listed agency of `dc`. -/
def gazaWhiteHouseItem : NewsItem :=
  { source := "Reuters", title := "Gaza ceasefire talks stall as White House briefs allies",
    pubDate := 0, isAlert := false }

/-- An empty (but present) previous snapshot: the detector is past cold
start. -/
def emptySnapshot : StreamSnapshot :=
  { newsVelocity := [], marketChanges := [], predictionChanges := [], timestamp := 0 }

/-- A cluster whose three recent items span the three distinct source
categories wire (`Reuters`), gov (`Pentagon`) and other (`Some Blog`). -/
def convOtherEvent : ClusteredEvent :=
  { id := "cluster-other", primaryTitle := "Quiet diplomatic meeting concludes",
    sourceCount := 3,
    allItems := [
      { source := "Reuters", title := "A", pubDate := 1000, isAlert := false },
      { source := "Pentagon", title := "B", pubDate := 1100, isAlert := false },
      { source := "Some Blog", title := "C", pubDate := 1200, isAlert := false }] }

/-- A cluster whose three recent items span wire (`Reuters`),
gov (`Pentagon`) and intel (`Bellingcat`). -/
def convCriticalEvent : ClusteredEvent :=
  { id := "cluster-critical", primaryTitle := "Quiet regional summit concludes",
    sourceCount := 3,
    allItems := [
      { source := "Reuters", title := "A", pubDate := 1000, isAlert := false },
      { source := "Pentagon", title := "B", pubDate := 1100, isAlert := false },
      { source := "Bellingcat", title := "C", pubDate := 1200, isAlert := false }] }

/-- A previous snapshot holding one prediction market at price 40. -/
def c5Snapshot : StreamSnapshot :=
  { newsVelocity := [], marketChanges := [],
    predictionChanges := [("Fed funds decision market", 40)], timestamp := 0 }

def c5FirstPrediction : PredictionMarket := { title := "Fed funds decision market", yesPrice := 47 }

def c5SecondPrediction : PredictionMarket := { title := "Fed funds decision market", yesPrice := 54 }

/-- A previous snapshot holding two prediction markets. -/
def c10Snapshot : StreamSnapshot :=
  { newsVelocity := [], marketChanges := [],
    predictionChanges := [("alpha market outcome", 40), ("beta market outcome", 30)],
    timestamp := 0 }

def c10FirstPrediction : PredictionMarket := { title := "alpha market outcome", yesPrice := 47 }

def c10SecondPrediction : PredictionMarket := { title := "beta market outcome", yesPrice := 36 }

def c10Requalify : PredictionMarket := { title := "beta market outcome", yesPrice := 42 }

end WorldMonitor

namespace WorldMonitor

/-! ## Theorems -/

/-- Claim C7: on cold start (no previous snapshot), `analyzeCorrelations`
stores the snapshot built from the current inputs and returns no signals,
for every input. -/
theorem analyze_cold_start (st : DetectorState) (now : ℤ) (events : List ClusteredEvent)
    (predictions : List PredictionMarket) (markets : List MarketData)
    (h : st.previousSnapshot = none) :
    (analyzeCorrelations st now events predictions markets).1 = [] ∧
    (analyzeCorrelations st now events predictions markets).2.previousSnapshot =
      some (mkSnapshot now events predictions markets) := by
  simp [analyzeCorrelations, h]

theorem analyze_cold_start_witness :
    ((⟨none, []⟩ : DetectorState).previousSnapshot = none) ∧
    (analyzeCorrelations ⟨none, []⟩ 0 [] [] []).1 = [] ∧
    (analyzeCorrelations ⟨none, []⟩ 0 [] [] []).2.previousSnapshot =
      some (mkSnapshot 0 [] [] []) :=
  ⟨rfl, analyze_cold_start ⟨none, []⟩ 0 [] [] [] rfl⟩

/-- Claim C8: after every call, the stored previous snapshot is exactly the
snapshot built from that call's inputs — the single snapshot slot is
replaced wholesale each cycle, whether or not signals were emitted. -/
theorem analyze_replaces_snapshot (st : DetectorState) (now : ℤ)
    (events : List ClusteredEvent) (predictions : List PredictionMarket)
    (markets : List MarketData) :
    (analyzeCorrelations st now events predictions markets).2.previousSnapshot =
      some (mkSnapshot now events predictions markets) := by
  cases h : st.previousSnapshot <;> simp [analyzeCorrelations, h]

/-- Claim C1: the end-to-end scenario of the spec — the Fed market moving
from `yesPrice = 0.40` to `yesPrice = 0.47` between two cycles with no
related news — produces NO signal: the code compares the raw probability
shift `|0.47 - 0.40| = 0.07` against `PREDICTION_SHIFT_THRESHOLD = 5`, so
the threshold is never met (the claim expects a shift of 7 percentage
points to qualify). -/
theorem fed_prediction_shift_claim_eval :
    (analyzeCorrelations { previousSnapshot := some c1PrevSnapshot, recentKeys := [] }
      300000 [] [{ title := fedTitle, yesPrice := 0.47 }] []).1 = [] ∧
    |(0.47 : ℚ) - 0.40| < PREDICTION_SHIFT_THRESHOLD := by
  constructor
  · norm_num +decide [analyzeCorrelations, collectCandidates, mkSnapshot,
      detectPredictionShifts, detectVelocitySpikes, detectSilentDivergences,
      detectConvergence, detectTriangulation, dedupeByType, extractTopics,
      alGet, alOfList, alSet, c1PrevSnapshot, fedTitle, strSlice,
      PREDICTION_SHIFT_THRESHOLD, le_abs]
  · norm_num [PREDICTION_SHIFT_THRESHOLD, abs_lt]

/-! ### Hotspot scorer lemmas -/

theorem statsStep_hasBreaking (spot : Hotspot) (now : ℤ) (st : ActivityStats)
    (item : NewsItem) :
    (statsStep spot now st item).hasBreaking =
      (st.hasBreaking || (item.isAlert && ! (matchedKeywords spot item.title).isEmpty)) := by
  unfold statsStep
  rcases h : matchedKeywords spot item.title with _ | ⟨kw, rest⟩ <;>
    cases ha : item.isAlert <;> cases hb : st.hasBreaking <;> simp [h, ha, hb]

theorem foldl_hasBreaking (spot : Hotspot) (now : ℤ) (news : List NewsItem)
    (init : ActivityStats) :
    (news.foldl (statsStep spot now) init).hasBreaking = true ↔
      (init.hasBreaking = true ∨
        ∃ item ∈ news, item.isAlert = true ∧ matchedKeywords spot item.title ≠ []) := by
  induction news generalizing init with
  | nil => simp
  | cons item rest ih =>
    simp only [List.foldl_cons, ih, statsStep_hasBreaking, List.mem_cons]
    constructor
    · rintro (h | h)
      · rcases Bool.or_eq_true_iff.mp h with h | h
        · exact Or.inl h
        · obtain ⟨ha, hm⟩ := Bool.and_eq_true_iff.mp h
          exact Or.inr ⟨item, Or.inl rfl, ha, by simpa using hm⟩
      · obtain ⟨it, hit, ha, hm⟩ := h
        exact Or.inr ⟨it, Or.inr hit, ha, hm⟩
    · rintro (h | ⟨it, hit | hit, ha, hm⟩)
      · exact Or.inl (by simp [h])
      · subst hit
        exact Or.inl (by simp [ha, hm])
      · exact Or.inr ⟨it, hit, ha, hm⟩

/-- Claim C2: `updateHotspotActivity` derives each hotspot's level/status by
the documented chain — `high` exactly when an alert-flagged matching item is
present or `matchedCount ≥ 4` or `score ≥ 10`; else `elevated` when
`matchedCount ≥ 2` or `score ≥ 4`; else `low`/"Recent mentions" when
`matchedCount ≥ 1`; else `low`/"Monitoring".  In particular, the Tel Aviv
hotspot with four Gaza items, one alert-flagged, becomes
`high`/"BREAKING NEWS". -/
theorem updateHotspotActivity_classification :
    (∀ (spots : List Hotspot) (news : List NewsItem) (now : ℤ),
      updateHotspotActivity spots news now = spots.map (fun spot =>
        (spot, (classifyHotspot (activityStats spot news now)).1,
          (classifyHotspot (activityStats spot news now)).2,
          (activityStats spot news now).hasBreaking)))
    ∧ (∀ st : ActivityStats,
      ((classifyHotspot st).1 = .high ↔
        (st.hasBreaking = true ∨ 4 ≤ st.matchedCount ∨ 10 ≤ st.score))
      ∧ ((classifyHotspot st).1 = .elevated ↔
        (¬ (st.hasBreaking = true ∨ 4 ≤ st.matchedCount ∨ 10 ≤ st.score) ∧
          (2 ≤ st.matchedCount ∨ 4 ≤ st.score)))
      ∧ (((classifyHotspot st).1 = .low ∧ (classifyHotspot st).2 = "Recent mentions") ↔
        (¬ (st.hasBreaking = true ∨ 4 ≤ st.matchedCount ∨ 10 ≤ st.score) ∧
          ¬ (2 ≤ st.matchedCount ∨ 4 ≤ st.score) ∧ 1 ≤ st.matchedCount))
      ∧ (((classifyHotspot st).1 = .low ∧ (classifyHotspot st).2 = "Monitoring") ↔
        (¬ (st.hasBreaking = true ∨ 4 ≤ st.matchedCount ∨ 10 ≤ st.score) ∧
          ¬ (2 ≤ st.matchedCount ∨ 4 ≤ st.score) ∧ st.matchedCount = 0)))
    ∧ (∀ (spot : Hotspot) (news : List NewsItem) (now : ℤ),
      (activityStats spot news now).hasBreaking = true ↔
        ∃ item ∈ news, item.isAlert = true ∧ matchedKeywords spot item.title ≠ [])
    ∧ updateHotspotActivity [telavivHotspot] c2News 7200000 =
        [(telavivHotspot, .high, "BREAKING NEWS", true)] := by
  refine ⟨fun spots news now => rfl, fun st => ?_,
    fun spot news now => by simpa [activityStats] using foldl_hasBreaking spot now news ⟨0, false, 0⟩, ?_⟩
  · unfold classifyHotspot
    by_cases hA : st.hasBreaking = true ∨ 4 ≤ st.matchedCount ∨ 10 ≤ st.score
    · rw [if_pos hA]
      simp [hA]
    · rw [if_neg hA]
      by_cases hB : 2 ≤ st.matchedCount ∨ 4 ≤ st.score
      · rw [if_pos hB]
        simp [hA, hB]
      · rw [if_neg hB]
        by_cases hC : 1 ≤ st.matchedCount
        · rw [if_pos hC]
          simp only [hA, hB, hC]
          refine ⟨by simp, by simp, by simp, ?_⟩
          simp only [iff_iff_implies_and_implies]
          constructor
          · rintro ⟨-, h⟩
            exact absurd h (by decide)
          · rintro ⟨-, -, h⟩
            omega
        · rw [if_neg hC]
          simp [hA, hB, hC]
          omega
  · norm_num +decide [updateHotspotActivity, activityStats, statsStep,
      matchedKeywords, classifyHotspot, c2News, telavivHotspot]

/-- The classification never exceeds rank 2. -/
theorem levelRank_le_two (st : ActivityStats) : levelRank (classifyHotspot st).1 ≤ 2 := by
  unfold classifyHotspot
  split_ifs <;> simp [levelRank]

/-- Below both the high and elevated thresholds the rank is 0. -/
theorem levelRank_eq_zero (st : ActivityStats)
    (hA : ¬ (st.hasBreaking = true ∨ 4 ≤ st.matchedCount ∨ 10 ≤ st.score))
    (hB : ¬ (2 ≤ st.matchedCount ∨ 4 ≤ st.score)) :
    levelRank (classifyHotspot st).1 = 0 := by
  unfold classifyHotspot
  rw [if_neg hA, if_neg hB]
  split_ifs <;> rfl

/-- Rank-monotonicity of the classification in its three inputs. -/
theorem classify_rank_mono (st st' : ActivityStats)
    (hB : st.hasBreaking = true → st'.hasBreaking = true)
    (hM : st.matchedCount ≤ st'.matchedCount) (hS : st.score ≤ st'.score) :
    levelRank (classifyHotspot st).1 ≤ levelRank (classifyHotspot st').1 := by
  have hA : (st.hasBreaking = true ∨ 4 ≤ st.matchedCount ∨ 10 ≤ st.score) →
      (st'.hasBreaking = true ∨ 4 ≤ st'.matchedCount ∨ 10 ≤ st'.score) := by
    rintro (h | h | h)
    exacts [Or.inl (hB h), Or.inr (Or.inl (le_trans h hM)), Or.inr (Or.inr (le_trans h hS))]
  have hBc : (2 ≤ st.matchedCount ∨ 4 ≤ st.score) →
      (2 ≤ st'.matchedCount ∨ 4 ≤ st'.score) := by
    rintro (h | h)
    exacts [Or.inl (le_trans h hM), Or.inr (le_trans h hS)]
  by_cases a : st.hasBreaking = true ∨ 4 ≤ st.matchedCount ∨ 10 ≤ st.score
  · have a' := hA a
    unfold classifyHotspot
    rw [if_pos a, if_pos a']
  · by_cases b : 2 ≤ st.matchedCount ∨ 4 ≤ st.score
    · calc levelRank (classifyHotspot st).1
          = 1 := by unfold classifyHotspot; rw [if_neg a, if_pos b]; rfl
        _ ≤ levelRank (classifyHotspot st').1 := by
            by_cases a' : st'.hasBreaking = true ∨ 4 ≤ st'.matchedCount ∨ 10 ≤ st'.score
            · unfold classifyHotspot
              rw [if_pos a']
              simp [levelRank]
            · unfold classifyHotspot
              rw [if_neg a', if_pos (hBc b)]
              exact Nat.le_refl _
    · rw [levelRank_eq_zero st a b]
      exact Nat.zero_le _

/-- Each scoring step only increases the accumulator componentwise. -/
theorem statsStep_le (spot : Hotspot) (now : ℤ) (st : ActivityStats) (item : NewsItem) :
    st.score ≤ (statsStep spot now st item).score ∧
    (st.hasBreaking = true → (statsStep spot now st item).hasBreaking = true) ∧
    st.matchedCount ≤ (statsStep spot now st item).matchedCount := by
  have hc : (0 : ℚ) ≤ ((matchedKeywords spot item.title).length : ℚ) * 2 := by positivity
  refine ⟨?_, ?_, ?_⟩ <;>
    simp only [statsStep] <;>
    split_ifs <;>
    simp_all <;>
    first
      | omega
      | linarith

/-- Extending the corpus only increases the accumulated statistics. -/
theorem foldl_stats_le (spot : Hotspot) (now : ℤ) (extra : List NewsItem)
    (st : ActivityStats) :
    st.score ≤ (extra.foldl (statsStep spot now) st).score ∧
    (st.hasBreaking = true → (extra.foldl (statsStep spot now) st).hasBreaking = true) ∧
    st.matchedCount ≤ (extra.foldl (statsStep spot now) st).matchedCount := by
  induction extra generalizing st with
  | nil => exact ⟨le_refl _, fun h => h, le_refl _⟩
  | cons item rest ih =>
    obtain ⟨s1, b1, m1⟩ := statsStep_le spot now st item
    obtain ⟨s2, b2, m2⟩ := ih (statsStep spot now st item)
    exact ⟨le_trans s1 s2, fun h => b2 (b1 h), le_trans m1 m2⟩

/-- Claim C9: hotspot severity is monotone — both in the raw
`(hasBreaking, matchedCount, score)` inputs of the classification, and in
the corpus: appending further news items never lowers the computed level. -/
theorem hotspot_severity_monotone :
    (∀ (hb hb' : Bool) (mc mc' : ℕ) (sc sc' : ℚ),
      (hb = true → hb' = true) → mc ≤ mc' → sc ≤ sc' →
      levelRank (classifyHotspot ⟨sc, hb, mc⟩).1 ≤
        levelRank (classifyHotspot ⟨sc', hb', mc'⟩).1)
    ∧ (∀ (spot : Hotspot) (news extra : List NewsItem) (now : ℤ),
      levelRank (classifyHotspot (activityStats spot news now)).1 ≤
        levelRank (classifyHotspot (activityStats spot (news ++ extra) now)).1) := by
  refine ⟨fun hb hb' mc mc' sc sc' h1 h2 h3 =>
    classify_rank_mono ⟨sc, hb, mc⟩ ⟨sc', hb', mc'⟩ h1 h2 h3,
    fun spot news extra now => ?_⟩
  have h : activityStats spot (news ++ extra) now =
      extra.foldl (statsStep spot now) (activityStats spot news now) := by
    simp [activityStats, List.foldl_append]
  rw [h]
  obtain ⟨hs, hb, hm⟩ := foldl_stats_le spot now extra (activityStats spot news now)
  exact classify_rank_mono _ _ hb hm hs

theorem hotspot_severity_monotone_witness :
    levelRank (classifyHotspot ⟨0, true, 1⟩).1 ≤ levelRank (classifyHotspot ⟨4, true, 2⟩).1 ∧
    levelRank (classifyHotspot (activityStats telavivHotspot [] 0)).1 ≤
      levelRank (classifyHotspot (activityStats telavivHotspot ([] ++ c2News) 0)).1 :=
  ⟨hotspot_severity_monotone.1 true true 1 2 0 4 (fun h => h) (by decide) (by norm_num),
   hotspot_severity_monotone.2 telavivHotspot [] c2News 0⟩

/-! ### Related-news (cross-topic suppression) lemmas -/

theorem relatedScore_some {spot : Hotspot} {item : NewsItem} {p : NewsItem × ℕ}
    (h : relatedScore spot item = some p) :
    p.1 = item ∧ p.2 = (matchedKeywords spot item.title).length := by
  simp only [relatedScore, matchedKeywords] at h ⊢
  split_ifs at h <;>
    first
      | exact Option.noConfusion h
      | (obtain rfl := Option.some.inj h
         exact ⟨rfl, rfl⟩)

theorem mem_insertDesc {z x : NewsItem × ℕ} {l : List (NewsItem × ℕ)} :
    z ∈ insertDesc x l ↔ z = x ∨ z ∈ l := by
  induction l with
  | nil => simp [insertDesc]
  | cons y ys ih =>
    simp only [insertDesc]
    split_ifs <;> simp [ih] <;> tauto

theorem mem_sortFold {z : NewsItem × ℕ} (l acc : List (NewsItem × ℕ)) :
    z ∈ l.foldl (fun acc x => insertDesc x acc) acc ↔ z ∈ acc ∨ z ∈ l := by
  induction l generalizing acc with
  | nil => simp
  | cons x xs ih =>
    simp only [List.foldl_cons, ih, mem_insertDesc, List.mem_cons]
    tauto

theorem mem_sortByScoreDesc {z : NewsItem × ℕ} {l : List (NewsItem × ℕ)} :
    z ∈ sortByScoreDesc l ↔ z ∈ l := by
  simpa [sortByScoreDesc] using mem_sortFold l []

theorem insertDesc_pairwise {x : NewsItem × ℕ} {l : List (NewsItem × ℕ)}
    (h : l.Pairwise (fun a b => b.2 ≤ a.2)) :
    (insertDesc x l).Pairwise (fun a b => b.2 ≤ a.2) := by
  induction l with
  | nil => simp [insertDesc]
  | cons y ys ih =>
    rw [List.pairwise_cons] at h
    obtain ⟨hy, hys⟩ := h
    simp only [insertDesc]
    split_ifs with hlt
    · refine List.Pairwise.cons ?_ (List.Pairwise.cons hy hys)
      intro b hb
      rcases List.mem_cons.mp hb with rfl | hb
      · exact le_of_lt hlt
      · exact le_trans (hy b hb) (le_of_lt hlt)
    · refine List.Pairwise.cons ?_ (ih hys)
      intro b hb
      rcases mem_insertDesc.mp hb with rfl | hb
      · exact le_of_not_lt hlt
      · exact hy b hb

theorem sortFold_pairwise (l : List (NewsItem × ℕ)) (acc : List (NewsItem × ℕ))
    (hacc : acc.Pairwise (fun a b => b.2 ≤ a.2)) :
    (l.foldl (fun acc x => insertDesc x acc) acc).Pairwise (fun a b => b.2 ≤ a.2) := by
  induction l generalizing acc with
  | nil => exact hacc
  | cons x xs ih => exact ih _ (insertDesc_pairwise hacc)

theorem sortByScoreDesc_pairwise (l : List (NewsItem × ℕ)) :
    (sortByScoreDesc l).Pairwise (fun a b => b.2 ≤ a.2) :=
  sortFold_pairwise l [] (List.Pairwise.nil)

theorem mem_getRelatedNews {spot : Hotspot} {news : List NewsItem} {z : NewsItem}
    (h : z ∈ getRelatedNews spot news) :
    relatedScore spot z = some (z, (matchedKeywords spot z.title).length) := by
  simp only [getRelatedNews, List.mem_map] at h
  obtain ⟨p, hp, rfl⟩ := h
  have hp2 : p ∈ sortByScoreDesc (news.filterMap (relatedScore spot)) :=
    List.mem_of_mem_take hp
  have hp3 : p ∈ news.filterMap (relatedScore spot) := mem_sortByScoreDesc.mp hp2
  obtain ⟨x, -, hx⟩ := List.mem_filterMap.mp hp3
  obtain ⟨h1, h2⟩ := relatedScore_some hx
  subst h1
  rw [hx, ← h2]

/-- Claim C4 (amended): an item matching a hotspot keyword that also
mentions an uncovered major conflict topic and has no strong local marker
(no matched keyword equal to the hotspot name and no listed agency in the
title) is excluded from `getRelatedNews`; the output is ranked by
keyword-match count descending with at most 5 items.  The spec's `dc`
scenario item is however NOT excluded — the listed agency `Pentagon`
appears in its title, a strong local marker — while the White House variant
(no agency in the title) is excluded. -/
theorem relatedNews_cross_topic_suppression :
    (∀ (spot : Hotspot) (news : List NewsItem) (item : NewsItem),
      matchedKeywords spot item.title ≠ [] →
      conflictTopics.filter (fun t => strIncludes (lowerStr item.title) t &&
        ! (spot.keywords.any (fun k => strIncludes (lowerStr k) t))) ≠ [] →
      (matchedKeywords spot item.title).any (fun kw =>
        lowerStr kw == lowerStr spot.name ||
          spot.agencies.any (fun a => strIncludes (lowerStr item.title) (lowerStr a))) = false →
      item ∉ getRelatedNews spot news)
    ∧ (∀ (spot : Hotspot) (news : List NewsItem),
      (getRelatedNews spot news).length ≤ 5 ∧
      (getRelatedNews spot news).Pairwise (fun a b =>
        (matchedKeywords spot b.title).length ≤ (matchedKeywords spot a.title).length))
    ∧ gazaPentagonItem ∈ getRelatedNews dcHotspot [gazaPentagonItem]
    ∧ getRelatedNews dcHotspot [gazaWhiteHouseItem] = [] := by
  refine ⟨?_, ?_, by decide, by decide⟩
  · intro spot news item hm hc hs habs
    have hnone : relatedScore spot item = none := by
      simp only [relatedScore, matchedKeywords] at *
      rw [if_neg (by simpa [List.length_eq_zero] using hm)]
      rw [if_pos (by simpa [Nat.pos_iff_ne_zero, List.length_eq_zero] using hc)]
      rw [if_pos (by simp [hs])]
    have := mem_getRelatedNews habs
    rw [hnone] at this
    exact Option.noConfusion this
  · intro spot news
    constructor
    · calc (getRelatedNews spot news).length
          = ((sortByScoreDesc (news.filterMap (relatedScore spot))).take 5).length := by
            simp [getRelatedNews]
        _ ≤ 5 := List.length_take_le _ _
    · have h1 : ((sortByScoreDesc (news.filterMap (relatedScore spot))).take 5).Pairwise
          (fun a b => b.2 ≤ a.2) :=
        List.Pairwise.sublist (List.take_sublist _ _)
          (sortByScoreDesc_pairwise (news.filterMap (relatedScore spot)))
      have h2 : ∀ p ∈ (sortByScoreDesc (news.filterMap (relatedScore spot))).take 5,
          p.2 = (matchedKeywords spot p.1.title).length := by
        intro p hp
        have hp3 : p ∈ news.filterMap (relatedScore spot) :=
          mem_sortByScoreDesc.mp (List.mem_of_mem_take hp)
        obtain ⟨x, _, hx⟩ := List.mem_filterMap.mp hp3
        obtain ⟨e1, e2⟩ := relatedScore_some hx
        rw [e2, e1]
      rw [getRelatedNews, List.pairwise_map]
      exact List.Pairwise.imp_of_mem
        (fun {a b} ha hb hle => by rw [← h2 a ha, ← h2 b hb]; exact hle) h1

theorem relatedNews_cross_topic_suppression_witness :
    gazaWhiteHouseItem ∉ getRelatedNews dcHotspot [gazaWhiteHouseItem] :=
  relatedNews_cross_topic_suppression.1 dcHotspot [gazaWhiteHouseItem] gazaWhiteHouseItem
    (by decide) (by decide) (by decide)

/-! ### Convergence lemmas -/

/-- Claim C3 (counterexample): a cluster with three recent items spanning
exactly three distinct source categories, one of which is `other`, produces
NO convergence signal — the code additionally requires at least three
distinct categories other than `other`. -/
theorem convergence_other_type_counterexample :
    3 ≤ convOtherEvent.allItems.length ∧
    3 ≤ (recentItemsOf 2000 convOtherEvent).length ∧
    (convSourceTypes 2000 convOtherEvent).length = 3 ∧
    (analyzeCorrelations ⟨some emptySnapshot, []⟩ 2000 [convOtherEvent] [] []).1 = [] := by
  refine ⟨by decide, by decide, by decide, by decide⟩

/-- Claim C3 (amended): for every clustered event with at least 3 items in
the last 30 minutes whose recent items span at least 3 distinct non-`other`
source categories, `detectConvergence` emits the convergence signal for
that cluster, provided its 30-minute dedupe key is unseen (event ids
assumed distinct so other clusters cannot shadow the key). -/
theorem convergence_nonother_emits
    (events : List ClusteredEvent) (now : ℤ) (keys : List DedupeKey) (e : ClusteredEvent)
    (he : e ∈ events)
    (hids : events.Pairwise (fun a b => a.id ≠ b.id))
    (hrecent : 3 ≤ (recentItemsOf now e).length)
    (htypes : 3 ≤ (convNonOtherTypes now e).length)
    (hkey : generateDedupeKey .convergence e.id ((convSourceTypes now e).length : ℚ) ∉ keys) :
    mkConvergenceSignal now e ∈ (detectConvergence now events keys).1 := by
  induction events generalizing keys with
  | nil => cases he
  | cons a rest ih =>
    rw [List.pairwise_cons] at hids
    obtain ⟨ha, hrest⟩ := hids
    have hlenfilter : (recentItemsOf now e).length ≤ e.allItems.length := by
      simpa [recentItemsOf] using
        List.length_filter_le (fun item => decide (now - item.pubDate < WINDOW_MS)) e.allItems
    have htypesfilter : (convNonOtherTypes now e).length ≤ (convSourceTypes now e).length := by
      simpa [convNonOtherTypes] using
        List.length_filter_le (fun t => decide (t ≠ SourceType.other)) (convSourceTypes now e)
    rcases List.mem_cons.mp he with rfl | he'
    · simp only [detectConvergence]
      rw [if_neg (by omega), if_neg (by omega), if_pos (by omega),
        if_pos ⟨by simp [isRecentDuplicate, hkey], htypes⟩]
      exact List.mem_cons_self _ _
    · have hane : a.id ≠ e.id := ha e he'
      simp only [detectConvergence]
      split_ifs with h1 h2 h3 h4 <;>
        first
          | exact ih keys he' hrest hkey
          | (refine List.mem_cons_of_mem _ (ih _ he' hrest ?_)
             intro hmem
             rcases List.mem_cons.mp hmem with heq | hm
             · exact hane (congrArg DedupeKey.identifier heq).symm
             · exact hkey hm)

theorem convergence_nonother_emits_witness :
    mkConvergenceSignal 2000 convCriticalEvent ∈ (detectConvergence 2000 [convCriticalEvent] []).1 :=
  convergence_nonother_emits [convCriticalEvent] 2000 [] convCriticalEvent
    (List.mem_cons_self _ _) (by simp) (by decide) (by decide) (List.not_mem_nil _)

/-- Claim C4 (counterexample): the spec's scenario item for the `dc`
hotspot is returned by `getRelatedNews`, not excluded: it matches the
keyword `pentagon`, it mentions the uncovered conflict topic `gaza`, but
the listed agency `Pentagon` occurs in the title, which is a strong local
marker. -/
theorem relatedNews_dc_item_included :
    getRelatedNews dcHotspot [gazaPentagonItem] = [gazaPentagonItem] ∧
    matchedKeywords dcHotspot gazaPentagonItem.title ≠ [] ∧
    strIncludes (lowerStr gazaPentagonItem.title) "gaza" = true ∧
    dcHotspot.keywords.any (fun k => strIncludes (lowerStr k) "gaza") = false ∧
    dcHotspot.agencies.any
      (fun a => strIncludes (lowerStr gazaPentagonItem.title) (lowerStr a)) = true := by
  refine ⟨by decide, by decide, by decide, by decide, by decide⟩

/-! ### Cross-type de-spam and confidence-floor lemmas -/

theorem find?_of_findIdx {α : Type _} {p : α → Bool} :
    ∀ {l : List α} {i : ℕ} {x : α}, l.findIdx p = i → l.get? i = some x →
      l.find? p = some x := by
  intro l
  induction l with
  | nil => intro i x _ h2; simp at h2
  | cons a as ih =>
    intro i x h1 h2
    by_cases hp : p a = true
    · rw [List.findIdx_cons, hp, cond_true] at h1
      subst h1
      simp only [List.get?_cons_zero, Option.some.injEq] at h2
      subst h2
      exact List.find?_cons_of_pos _ hp
    · have hpf : p a = false := by simpa using hp
      rw [List.findIdx_cons, hpf, cond_false] at h1
      subst h1
      simp only [List.get?_cons_succ] at h2
      rw [List.find?_cons_of_neg _ hp]
      exact ih rfl h2

theorem enumFrom_pairwise_fst_lt {α : Type _} :
    ∀ (n : ℕ) (l : List α), (l.enumFrom n).Pairwise (fun a b => a.1 < b.1) := by
  intro n l
  induction l generalizing n with
  | nil => simp
  | cons x xs ih =>
    simp only [List.enumFrom]
    refine List.Pairwise.cons ?_ (ih (n + 1))
    rintro ⟨i, y⟩ hb
    have := (List.mk_mem_enumFrom_iff_le_and_get?_sub.mp hb).1
    omega

theorem dedupeByType_pairwise (l : List CorrelationSignal) :
    (dedupeByType l).Pairwise (fun a b => a.type ≠ b.type) := by
  unfold dedupeByType
  rw [List.pairwise_map]
  have h1 : (l.enum.filter (fun p =>
      l.findIdx (fun s => decide (s.type = p.2.type)) == p.1)).Pairwise
      (fun a b => a.1 < b.1) :=
    List.Pairwise.sublist (List.filter_sublist _) (enumFrom_pairwise_fst_lt 0 l)
  refine List.Pairwise.imp_of_mem ?_ h1
  intro a b ha hb hlt hEq
  have ha' : l.findIdx (fun s => decide (s.type = a.2.type)) = a.1 := by
    simpa using (List.mem_filter.mp ha).2
  have hb' : l.findIdx (fun s => decide (s.type = b.2.type)) = b.1 := by
    simpa using (List.mem_filter.mp hb).2
  simp only [hEq] at ha'
  omega

theorem dedupeByType_find? {l : List CorrelationSignal} {s : CorrelationSignal}
    (h : s ∈ dedupeByType l) :
    l.find? (fun t => decide (t.type = s.type)) = some s := by
  unfold dedupeByType at h
  obtain ⟨p, hp, hps⟩ := List.mem_map.mp h
  obtain ⟨hmem, hidx⟩ := List.mem_filter.mp hp
  have hgot : l.get? p.1 = some p.2 := by
    simpa using List.mem_enum_iff_get?.mp hmem
  have hfi : l.findIdx (fun t => decide (t.type = p.2.type)) = p.1 := by
    simpa using hidx
  subst hps
  exact find?_of_findIdx hfi hgot

theorem countP_le_one_of_pairwise (l : List CorrelationSignal)
    (h : l.Pairwise (fun a b => a.type ≠ b.type)) (τ : SignalType) :
    l.countP (fun s => decide (s.type = τ)) ≤ 1 := by
  induction l with
  | nil => simp
  | cons a as ih =>
    rw [List.pairwise_cons] at h
    obtain ⟨ha, has⟩ := h
    rw [List.countP_cons]
    by_cases hp : a.type = τ
    · have hz : as.countP (fun s => decide (s.type = τ)) = 0 := by
        rw [List.countP_eq_zero]
        intro b hb
        simp only [decide_eq_true_eq]
        intro hbt
        exact ha b hb (by rw [hp, hbt])
      simp [hz, hp]
    · simp only [hp, decide_False, if_false]
      simpa using ih has

/-- Claim C6: every signal returned by `analyzeCorrelations` has confidence
at least 0.6, the returned list has at most one signal per type, and any
returned signal is the first candidate generated for its type in that
cycle. -/
theorem signals_confidence_floor_and_unique (st : DetectorState) (now : ℤ)
    (events : List ClusteredEvent) (predictions : List PredictionMarket)
    (markets : List MarketData) :
    (∀ s ∈ (analyzeCorrelations st now events predictions markets).1,
      (0.6 : ℚ) ≤ s.confidence)
    ∧ (analyzeCorrelations st now events predictions markets).1.Pairwise
        (fun a b => a.type ≠ b.type)
    ∧ (∀ prev, st.previousSnapshot = some prev →
      ∀ s ∈ (analyzeCorrelations st now events predictions markets).1,
        (collectCandidates prev st.recentKeys now events predictions markets).1.find?
          (fun t => decide (t.type = s.type)) = some s) := by
  cases h : st.previousSnapshot with
  | none => simp [analyzeCorrelations, h]
  | some prev =>
    simp only [analyzeCorrelations, h]
    refine ⟨?_, ?_, ?_⟩
    · intro s hs
      exact of_decide_eq_true (List.mem_filter.mp hs).2
    · exact List.Pairwise.sublist (List.filter_sublist _) (dedupeByType_pairwise _)
    · intro prev' hprev' s hs
      obtain rfl : prev = prev' := Option.some.inj hprev'
      exact dedupeByType_find? (List.mem_filter.mp hs).1

/-- In the triangulation-only scenario the detector returns exactly one
signal. -/
theorem triScenario_eval :
    (analyzeCorrelations ⟨some emptySnapshot, []⟩ 2000000 [convCriticalEvent] [] []).1 =
      [mkTriangulationSignal convCriticalEvent] := by
  have htopics : extractTopics [convCriticalEvent] = [] := by decide
  have hrec : (recentItemsOf 2000000 convCriticalEvent).length = 0 := by decide
  have htri : (triTypesPresent convCriticalEvent).length = 3 := by decide
  norm_num +decide [analyzeCorrelations, collectCandidates, htopics,
    detectPredictionShifts, detectVelocitySpikes, detectSilentDivergences,
    detectConvergence, detectTriangulation, hrec, htri, isRecentDuplicate,
    markSignalSeen, dedupeByType, mkTriangulationSignal, convCriticalEvent]

theorem signals_confidence_floor_and_unique_witness :
    (0.6 : ℚ) ≤ (mkTriangulationSignal convCriticalEvent).confidence ∧
    (collectCandidates emptySnapshot [] 2000000 [convCriticalEvent] [] []).1.find?
      (fun t => decide (t.type = (mkTriangulationSignal convCriticalEvent).type)) =
      some (mkTriangulationSignal convCriticalEvent) := by
  have hmem : mkTriangulationSignal convCriticalEvent ∈
      (analyzeCorrelations ⟨some emptySnapshot, []⟩ 2000000 [convCriticalEvent] [] []).1 := by
    rw [triScenario_eval]
    exact List.mem_cons_self _ _
  obtain ⟨h1, -, h3⟩ := signals_confidence_floor_and_unique ⟨some emptySnapshot, []⟩
    2000000 [convCriticalEvent] [] []
  exact ⟨h1 _ hmem, h3 emptySnapshot rfl _ hmem⟩

/-! ### Prediction-shift dedupe lemmas -/

theorem extractTopics_nil : extractTopics [] = [] := rfl

theorem detectPredictionShifts_nil (nt pp : List (String × ℚ)) (k : List DedupeKey) :
    detectPredictionShifts nt pp [] k = ([], k) := rfl

theorem detectVelocitySpikes_nil (pt : List (String × ℚ)) (k : List DedupeKey) :
    detectVelocitySpikes pt [] k = ([], k) := rfl

theorem detectSilentDivergences_nil (nt : List (String × ℚ)) (k : List DedupeKey) :
    detectSilentDivergences nt [] k = ([], k) := rfl

theorem detectConvergence_nil (now : ℤ) (k : List DedupeKey) :
    detectConvergence now [] k = ([], k) := rfl

theorem detectTriangulation_nil (k : List DedupeKey) :
    detectTriangulation [] k = ([], k) := rfl

theorem foldl_alGet_nil (l : List String) :
    ∀ q : ℚ, l.foldl (fun sum t => sum + (alGet [] t).getD 0) q = q := by
  induction l with
  | nil => intro q; rfl
  | cons t ts ih =>
    intro q
    rw [List.foldl_cons]
    have : (alGet [] t).getD 0 = 0 := rfl
    rw [this, add_zero]
    exact ih q

theorem predConfidence_ge {shift : ℚ} (h : PREDICTION_SHIFT_THRESHOLD ≤ shift) :
    (0.6 : ℚ) ≤ min 0.9 (0.5 + shift / 20) := by
  have h5 : (5 : ℚ) ≤ shift := h
  rw [le_min_iff]
  constructor
  · norm_num
  · linarith

theorem dedupeByType_singleton (s : CorrelationSignal) : dedupeByType [s] = [s] := by
  simp [dedupeByType, List.findIdx_cons]

theorem dedupeByType_pair_same_type (s t : CorrelationSignal) (h : s.type = t.type) :
    dedupeByType [s, t] = [s] := by
  simp [dedupeByType, List.enum, List.enumFrom, List.filter, List.findIdx_cons, h]

theorem filter_conf_singleton {s : CorrelationSignal} (h : (0.6 : ℚ) ≤ s.confidence) :
    [s].filter (fun x => decide ((0.6 : ℚ) ≤ x.confidence)) = [s] := by
  simp [List.filter, h]

/-- Evaluation of `analyzeCorrelations` on a single prediction market (no
events, no markets) whose truncated title is present in the previous
snapshot: a signal is emitted exactly when the shift meets the threshold
and its dedupe key is unseen, and in either case the key set and snapshot
are updated as the code does. -/
theorem analyze_single_prediction
    (snap : StreamSnapshot) (keys0 : List DedupeKey) (p : PredictionMarket)
    (now : ℤ) (v0 : ℚ)
    (hprev : alGet snap.predictionChanges (strSlice p.title 50) = some v0) :
    analyzeCorrelations ⟨some snap, keys0⟩ now [] [p] [] =
      if PREDICTION_SHIFT_THRESHOLD ≤ |p.yesPrice - v0| ∧
          generateDedupeKey .prediction_leads_news (strSlice p.title 50)
            |p.yesPrice - v0| ∉ keys0 then
        ([mkPredictionSignal p.title |p.yesPrice - v0| 0 (findRelatedTopics p.title)],
          ⟨some (mkSnapshot now [] [p] []),
            generateDedupeKey .prediction_leads_news (strSlice p.title 50)
              |p.yesPrice - v0| :: keys0⟩)
      else ([], ⟨some (mkSnapshot now [] [p] []), keys0⟩) := by
  simp only [analyzeCorrelations, collectCandidates, extractTopics_nil,
    detectVelocitySpikes_nil, detectSilentDivergences_nil, detectConvergence_nil,
    detectTriangulation_nil, detectPredictionShifts, detectPredictionShifts_nil,
    hprev, foldl_alGet_nil, markSignalSeen]
  by_cases h1 : PREDICTION_SHIFT_THRESHOLD ≤ |p.yesPrice - v0|
  · by_cases h2 : generateDedupeKey .prediction_leads_news (strSlice p.title 50)
        |p.yesPrice - v0| ∉ keys0
    · rw [if_pos h1, if_pos ⟨by norm_num [NEWS_VELOCITY_THRESHOLD],
        by simpa [isRecentDuplicate] using h2⟩, if_pos ⟨h1, h2⟩]
      simp only [List.append_nil]
      rw [dedupeByType_singleton, filter_conf_singleton (by
        simpa [mkPredictionSignal] using predConfidence_ge h1)]
    · rw [if_pos h1, if_neg (fun hand => hand.2 (by
        simpa [isRecentDuplicate] using not_not.mp h2)), if_neg (fun hand => h2 hand.2)]
      rfl
  · rw [if_neg h1, if_neg (fun hand => h1 hand.1)]
    rfl

/-- Claim C5: across two detector calls within the 30-minute dedupe window
(state threaded, no key expiry), an unchanged qualifying prediction-shift
condition — same truncated title and same shift rounded to one decimal —
emits the `prediction_leads_news` signal at most once. -/
theorem prediction_signal_deduped_across_calls
    (snap : StreamSnapshot) (keys0 : List DedupeKey) (p q : PredictionMarket)
    (now1 now2 : ℤ) (v0 : ℚ)
    (hprev : alGet snap.predictionChanges (strSlice p.title 50) = some v0)
    (hq : strSlice q.title 50 = strSlice p.title 50)
    (hr : ⌊|q.yesPrice - p.yesPrice| * 10 + 1/2⌋ = ⌊|p.yesPrice - v0| * 10 + 1/2⌋) :
    (analyzeCorrelations ⟨some snap, keys0⟩ now1 [] [p] []).1.countP
        (fun s => decide (s.type = .prediction_leads_news)) +
    (analyzeCorrelations (analyzeCorrelations ⟨some snap, keys0⟩ now1 [] [p] []).2
        now2 [] [q] []).1.countP
        (fun s => decide (s.type = .prediction_leads_news)) ≤ 1 := by
  have hlookup : alGet (mkSnapshot now1 [] [p] []).predictionChanges (strSlice q.title 50) =
      some p.yesPrice := by
    simp [mkSnapshot, alOfList, alSet, alGet, hq]
  have hkeq : generateDedupeKey .prediction_leads_news (strSlice q.title 50)
      |q.yesPrice - p.yesPrice| =
      generateDedupeKey .prediction_leads_news (strSlice p.title 50) |p.yesPrice - v0| := by
    unfold generateDedupeKey
    rw [hq, hr]
  rw [analyze_single_prediction snap keys0 p now1 v0 hprev]
  by_cases hc : PREDICTION_SHIFT_THRESHOLD ≤ |p.yesPrice - v0| ∧
      generateDedupeKey .prediction_leads_news (strSlice p.title 50) |p.yesPrice - v0| ∉ keys0
  · rw [if_pos hc]
    simp only []
    rw [analyze_single_prediction _ _ q now2 p.yesPrice hlookup]
    rw [if_neg (fun hand => hand.2 (by rw [hkeq]; exact List.mem_cons_self _ _))]
    simp [mkPredictionSignal, List.countP_cons]
  · rw [if_neg hc]
    simp only []
    rw [analyze_single_prediction _ _ q now2 p.yesPrice hlookup]
    by_cases hc2 : PREDICTION_SHIFT_THRESHOLD ≤ |q.yesPrice - p.yesPrice| ∧
        generateDedupeKey .prediction_leads_news (strSlice q.title 50)
          |q.yesPrice - p.yesPrice| ∉ keys0
    · rw [if_pos hc2]
      simp [mkPredictionSignal, List.countP_cons]
    · rw [if_neg hc2]
      simp

theorem prediction_signal_deduped_across_calls_witness :
    (analyzeCorrelations ⟨some c5Snapshot, []⟩ 1000 [] [c5FirstPrediction] []).1.countP
        (fun s => decide (s.type = .prediction_leads_news)) +
    (analyzeCorrelations
        (analyzeCorrelations ⟨some c5Snapshot, []⟩ 1000 [] [c5FirstPrediction] []).2
        2000 [] [c5SecondPrediction] []).1.countP
        (fun s => decide (s.type = .prediction_leads_news)) ≤ 1 :=
  prediction_signal_deduped_across_calls c5Snapshot [] c5FirstPrediction c5SecondPrediction
    1000 2000 40 (by decide) (by decide) (by
      have e1 : |(54 : ℚ) - 47| = 7 := by
        rw [show (54 : ℚ) - 47 = 7 by norm_num]
        exact abs_of_nonneg (by norm_num)
      have e2 : |(47 : ℚ) - 40| = 7 := by
        rw [show (47 : ℚ) - 40 = 7 by norm_num]
        exact abs_of_nonneg (by norm_num)
      simp [c5FirstPrediction, c5SecondPrediction, e1, e2])

/-- Claim C10: a prediction candidate that passes its local threshold marks
its dedupe key even when the cross-type de-spam filter then discards it:
with two qualifying predictions only the first is returned, yet the second
one's key is in the post-state, and a follow-up call within 30 minutes in
which the second market again qualifies with the same rounded shift emits
nothing — the discarded candidate is suppressed and never reported. -/
theorem marked_seen_despite_discard
    (snap : StreamSnapshot) (keys0 : List DedupeKey) (p1 p2 q : PredictionMarket)
    (now1 now2 : ℤ) (v1 v2 : ℚ)
    (hprev1 : alGet snap.predictionChanges (strSlice p1.title 50) = some v1)
    (hprev2 : alGet snap.predictionChanges (strSlice p2.title 50) = some v2)
    (hs1 : PREDICTION_SHIFT_THRESHOLD ≤ |p1.yesPrice - v1|)
    (hs2 : PREDICTION_SHIFT_THRESHOLD ≤ |p2.yesPrice - v2|)
    (hk1 : generateDedupeKey .prediction_leads_news (strSlice p1.title 50)
      |p1.yesPrice - v1| ∉ keys0)
    (hk2 : generateDedupeKey .prediction_leads_news (strSlice p2.title 50)
      |p2.yesPrice - v2| ∉ keys0)
    (hkne : strSlice p2.title 50 ≠ strSlice p1.title 50)
    (hq : strSlice q.title 50 = strSlice p2.title 50)
    (hr : ⌊|q.yesPrice - p2.yesPrice| * 10 + 1/2⌋ = ⌊|p2.yesPrice - v2| * 10 + 1/2⌋) :
    (analyzeCorrelations ⟨some snap, keys0⟩ now1 [] [p1, p2] []).1 =
      [mkPredictionSignal p1.title |p1.yesPrice - v1| 0 (findRelatedTopics p1.title)] ∧
    generateDedupeKey .prediction_leads_news (strSlice p2.title 50) |p2.yesPrice - v2| ∈
      (analyzeCorrelations ⟨some snap, keys0⟩ now1 [] [p1, p2] []).2.recentKeys ∧
    (analyzeCorrelations (analyzeCorrelations ⟨some snap, keys0⟩ now1 [] [p1, p2] []).2
      now2 [] [q] []).1 = [] := by
  have hdk2 : generateDedupeKey .prediction_leads_news (strSlice p2.title 50)
      |p2.yesPrice - v2| ∉
      generateDedupeKey .prediction_leads_news (strSlice p1.title 50)
        |p1.yesPrice - v1| :: keys0 := by
    intro hmem
    rcases List.mem_cons.mp hmem with heq | hm
    · exact hkne (congrArg DedupeKey.identifier heq)
    · exact hk2 hm
  have heval : analyzeCorrelations ⟨some snap, keys0⟩ now1 [] [p1, p2] [] =
      ([mkPredictionSignal p1.title |p1.yesPrice - v1| 0 (findRelatedTopics p1.title)],
        ⟨some (mkSnapshot now1 [] [p1, p2] []),
          generateDedupeKey .prediction_leads_news (strSlice p2.title 50)
              |p2.yesPrice - v2| ::
            generateDedupeKey .prediction_leads_news (strSlice p1.title 50)
              |p1.yesPrice - v1| :: keys0⟩) := by
    simp only [analyzeCorrelations, collectCandidates, extractTopics_nil,
      detectVelocitySpikes_nil, detectSilentDivergences_nil, detectConvergence_nil,
      detectTriangulation_nil, detectPredictionShifts, detectPredictionShifts_nil,
      hprev1, hprev2, foldl_alGet_nil, markSignalSeen]
    rw [if_pos hs1, if_pos ⟨by norm_num [NEWS_VELOCITY_THRESHOLD],
      by simpa [isRecentDuplicate] using hk1⟩]
    rw [if_pos hs2, if_pos ⟨by norm_num [NEWS_VELOCITY_THRESHOLD],
      by simpa [isRecentDuplicate] using hdk2⟩]
    simp only [List.append_nil]
    rw [dedupeByType_pair_same_type
      (mkPredictionSignal p1.title |p1.yesPrice - v1| 0 (findRelatedTopics p1.title))
      (mkPredictionSignal p2.title |p2.yesPrice - v2| 0 (findRelatedTopics p2.title)) rfl]
    rw [filter_conf_singleton (by
      simpa [mkPredictionSignal] using predConfidence_ge hs1)]
  have hbeq : (strSlice p1.title 50 == strSlice p2.title 50) = false :=
    beq_eq_false_iff_ne.mpr (fun h => hkne h.symm)
  have hlookup : alGet (mkSnapshot now1 [] [p1, p2] []).predictionChanges
      (strSlice q.title 50) = some p2.yesPrice := by
    simp [mkSnapshot, alOfList, alSet, alGet, hq, hbeq]
  have hkeq : generateDedupeKey .prediction_leads_news (strSlice q.title 50)
      |q.yesPrice - p2.yesPrice| =
      generateDedupeKey .prediction_leads_news (strSlice p2.title 50)
        |p2.yesPrice - v2| := by
    unfold generateDedupeKey
    rw [hq, hr]
  refine ⟨by rw [heval], by rw [heval]; exact List.mem_cons_self _ _, ?_⟩
  rw [heval]
  simp only []
  rw [analyze_single_prediction _ _ q now2 p2.yesPrice hlookup]
  rw [if_neg (fun hand => hand.2 (by rw [hkeq]; exact List.mem_cons_self _ _))]

theorem marked_seen_despite_discard_witness :
    (analyzeCorrelations ⟨some c10Snapshot, []⟩ 1000 []
        [c10FirstPrediction, c10SecondPrediction] []).1 =
      [mkPredictionSignal c10FirstPrediction.title |c10FirstPrediction.yesPrice - 40| 0
        (findRelatedTopics c10FirstPrediction.title)] ∧
    generateDedupeKey .prediction_leads_news (strSlice c10SecondPrediction.title 50)
        |c10SecondPrediction.yesPrice - 30| ∈
      (analyzeCorrelations ⟨some c10Snapshot, []⟩ 1000 []
        [c10FirstPrediction, c10SecondPrediction] []).2.recentKeys ∧
    (analyzeCorrelations
        (analyzeCorrelations ⟨some c10Snapshot, []⟩ 1000 []
          [c10FirstPrediction, c10SecondPrediction] []).2
        2000 [] [c10Requalify] []).1 = [] :=
  marked_seen_despite_discard c10Snapshot [] c10FirstPrediction c10SecondPrediction
    c10Requalify 1000 2000 40 30 (by decide) (by decide)
    (by
      have e : |(47 : ℚ) - 40| = 7 := by
        rw [show (47 : ℚ) - 40 = 7 by norm_num]
        exact abs_of_nonneg (by norm_num)
      simp [c10FirstPrediction, e, PREDICTION_SHIFT_THRESHOLD]
      norm_num)
    (by
      have e : |(36 : ℚ) - 30| = 6 := by
        rw [show (36 : ℚ) - 30 = 6 by norm_num]
        exact abs_of_nonneg (by norm_num)
      simp [c10SecondPrediction, e, PREDICTION_SHIFT_THRESHOLD]
      norm_num)
    (List.not_mem_nil _) (List.not_mem_nil _) (by decide) (by decide)
    (by
      have e1 : |(42 : ℚ) - 36| = 6 := by
        rw [show (42 : ℚ) - 36 = 6 by norm_num]
        exact abs_of_nonneg (by norm_num)
      have e2 : |(36 : ℚ) - 30| = 6 := by
        rw [show (36 : ℚ) - 30 = 6 by norm_num]
        exact abs_of_nonneg (by norm_num)
      simp [c10SecondPrediction, c10Requalify, e1, e2])

end WorldMonitor
